import Mathlib

/-!
Shallow embedding of the `vacuum-reproduction` workflow (`src/main.rs`).

The program seeds an in-memory SQLite database with a fixed two-row table,
verifies it, exports it with `VACUUM INTO` to a freshly provisioned temp-file
path, drops the live handle, reopens the exported file, and compares.  Three
strategies exist: an sqlx shared-cache exclusive connection, an sqlx pool
capped at one connection, and rusqlite.

The embedded database engine (SQLite) and the filesystem are external
collaborators of the repository; their contracts are modelled from the spec
(sections 4.1, 4.4, 6 and the glossary): an in-memory database is a value, the
filesystem is an association list from paths to file contents, and the export
operation writes a snapshot of the database to the destination path,
tolerating a zero-byte placeholder but refusing a non-empty destination.
Everything the repository itself does (statement texts, assertion checks,
control flow, error propagation) is translated directly from `src/main.rs`.
-/

namespace VacuumRepro

/-- Row shape decoded from `select * from test` (struct `Test` in `main.rs`):
a 64-bit integer id and a text name. -/
structure Test where
  id : Int
  name : String
deriving DecidableEq, Repr

/-- Catalog row decoded from the `sqlite_master` query (struct `Table` in
`main.rs`): a single text table name. -/
structure Table where
  name : String
deriving DecidableEq, Repr

/-- Errors surfaced by the modelled engine, filesystem and assertion checks.
In the source these are `anyhow` errors, sqlx/rusqlite errors, and
`assert!`/`assert_eq!` panics; each fatal condition gets one constructor. -/
inductive EngineError where
  | tempFileError
  | connectError
  | malformedSql
  | tableExists
  | noSuchTable
  | exportCollision
  | fileNotFound
  | assertFailed
deriving DecidableEq, Repr

/-- Modelled from the spec: the state of one embedded database instance — the
list of table names in its catalog and the rows of the single `test` table,
in storage order. -/
structure Db where
  tables : List String
  testRows : List Test
deriving DecidableEq, Repr

/-- A freshly connected in-memory database: no tables, no rows. -/
def emptyDb : Db := ⟨[], []⟩

/-- The statements appearing in the program's SQL batch: `create table` and
the literal value-less-id inserts. -/
inductive SqlStmt where
  | createTable (tname : String)
  | insertName (tname : String) (nm : String)
deriving DecidableEq, Repr

/-- The seeding batch constant `CREATE_TABLE` of `main.rs`:
`create table test (id integer primary key, name text);`
`insert into test (name) values ('hello');`
`insert into test (name) values ('world');` — one batch of three statements. -/
def CREATE_TABLE : List SqlStmt :=
  [.createTable "test", .insertName "test" "hello", .insertName "test" "world"]

/-- The query constant `SELECT_ALL` of `main.rs`. -/
def SELECT_ALL : String := "select * from test"

/-- Modelled from the spec: the id auto-assigned by the store on insert —
one more than the largest existing id, starting at 1 (SQLite rowid
assignment for `integer primary key`). -/
def nextId (rows : List Test) : Int :=
  (rows.map (fun r => r.id)).foldl max 0 + 1

/-- Modelled from the spec: execution of a single statement against a live
database.  `create table` fails if the table already exists; an insert fails
if the table is missing, and otherwise appends a row with the auto-assigned
id. -/
def execStmt (db : Db) : SqlStmt → Except EngineError Db
  | .createTable t =>
      if db.tables.contains t then .error .tableExists
      else .ok { db with tables := db.tables ++ [t] }
  | .insertName t nm =>
      if db.tables.contains t then
        .ok { db with testRows := db.testRows ++ [⟨nextId db.testRows, nm⟩] }
      else .error .noSuchTable

/-- Modelled from the spec: `execute_batch` — the statements of the batch run
in order, synchronously, stopping at the first error. -/
def execBatch (db : Db) (stmts : List SqlStmt) : Except EngineError Db :=
  stmts.foldlM execStmt db

/-- Modelled from the spec: the full unfiltered scan `select * from test` —
fails with "no such table" when `test` is absent, otherwise returns the rows
in storage order. -/
def selectAll (db : Db) : Except EngineError (List Test) :=
  if db.tables.contains "test" then .ok db.testRows else .error .noSuchTable

/-- Modelled from the spec: the catalog query
`SELECT name FROM sqlite_master WHERE type='table'`. -/
def selectCatalog (db : Db) : List Table :=
  db.tables.map Table.mk

/-- Contents of one filesystem entry: a zero-byte placeholder (as created by
`NamedTempFile::new`) or a stored database file. -/
inductive FsFile where
  | empty
  | stored (d : Db)
deriving DecidableEq, Repr

/-- The filesystem, an association list from paths to file contents. -/
abbrev Fs := List (String × FsFile)

/-- Whether a path exists on the filesystem (`Path::exists`). -/
def fsExists (fs : Fs) (path : String) : Bool :=
  (fs.lookup path).isSome

/-- Write a file at a path, replacing any previous entry. -/
def fsInsert (fs : Fs) (path : String) (f : FsFile) : Fs :=
  (path, f) :: fs.filter (fun e => e.1 != path)

/-- The temp-target provisioner `NamedTempFile::new()`: it picks a path that
does not yet exist and creates a zero-byte file there.  The chosen path is a
parameter; freshness is checked (the real provisioner guarantees it), and
any filesystem failure is fatal. -/
def provision (fs : Fs) (path : String) : Except EngineError Fs :=
  if fsExists fs path then .error .tempFileError
  else .ok (fsInsert fs path .empty)

/-- The single-quote character used by the SQL string literal syntax. -/
def quoteChar : Char := Char.ofNat 39

/-- The function `vacuum_into` of `main.rs`:
`format!("vacuum into '{db_str}'")` — the path is embedded verbatim between
single quotes, with no escaping. -/
def vacuum_into (db_str : String) : String :=
  "vacuum into '" ++ db_str ++ "'"

/-- Match an expected head sequence of characters, returning the rest. -/
def stripHead : List Char → List Char → Option (List Char)
  | [], cs => some cs
  | _ :: _, [] => none
  | p :: ps, c :: cs => if c = p then stripHead ps cs else none

/-- Scan a single-quote-terminated SQL string literal body: a doubled quote
denotes one literal quote character; the literal ends at the first undoubled
quote, which must be the last character of the input for the statement to be
a single well-formed statement.  Returns the unescaped literal. -/
def scanSqlLit : List Char → Option (List Char)
  | [] => none
  | c :: rest =>
    if c = quoteChar then
      match rest with
      | [] => some []
      | c2 :: rest2 =>
        if c2 = quoteChar then (scanSqlLit rest2).map (fun l => c :: l)
        else none
    else (scanSqlLit rest).map (fun l => c :: l)

/-- The fixed head of the vacuum statement text. -/
def vacuumHead : String := "vacuum into '"

/-- Modelled from the spec: the engine's parse of a `vacuum into '<path>'`
statement text.  Returns the destination path iff the text is one
well-formed statement: the fixed head, then a quote-escaped literal, then
the closing quote ending the text. -/
def parseVacuumInto (s : String) : Option String :=
  match stripHead vacuumHead.data s.data with
  | some rest => (scanSqlLit rest).map String.mk
  | none => none

/-- Modelled from the spec: the `VACUUM INTO` export (spec 4.4 and the SQLite
contract): a point-in-time snapshot of the live database is written to the
destination path.  The destination must not previously exist, or else must
be an empty (zero-byte) file; a non-empty destination is a fatal collision. -/
def export_to (db : Db) (fs : Fs) (path : String) : Except EngineError Fs :=
  match fs.lookup path with
  | none => .ok (fsInsert fs path (.stored db))
  | some .empty => .ok (fsInsert fs path (.stored db))
  | some (.stored _) => .error .exportCollision

/-- Modelled from the spec: `conn.execute(sql)` for the dynamically built
vacuum statement used by the sqlx strategies — the engine parses the text
and, when it is a well-formed vacuum statement, exports to the parsed
destination; malformed text is a fatal SQL error. -/
def execStatement (db : Db) (fs : Fs) (stmt : String) : Except EngineError Fs :=
  match parseVacuumInto stmt with
  | some target => export_to db fs target
  | none => .error .malformedSql

/-- Modelled from the spec: `SqlitePool::connect(db_path)` on a filesystem
path (sqlx default options: the file must already exist).  A zero-byte file
opens as an empty database; a stored file opens with its stored contents. -/
def connectFile (fs : Fs) (path : String) : Except EngineError Db :=
  match fs.lookup path with
  | some (.stored d) => .ok d
  | some .empty => .ok emptyDb
  | none => .error .fileNotFound

/-- Modelled from the spec: `rusqlite::Connection::open(path)` — like
`connectFile` but a missing file is created as a fresh empty database. -/
def rusqliteOpen (fs : Fs) (path : String) : Except EngineError Db :=
  match fs.lookup path with
  | some (.stored d) => .ok d
  | some .empty => .ok emptyDb
  | none => .ok emptyDb

/-- An `assert!`/`assert_eq!` check: a failed assertion is a fatal error
aborting the run (a panic in the source). -/
def assertThat (p : Prop) [Decidable p] : Except EngineError Unit :=
  if p then .ok () else .error .assertFailed

/-- The live (pre-export) verification performed by every strategy:
`assert_eq!(things.len(), 2)` / `assert!(things.len() == 2)` — only the row
count is checked at this stage. -/
def liveRowCheck (things : List Test) : Except EngineError Unit :=
  assertThat (things.length = 2)

/-- Modelled from the spec: an sqlx connection pool to one in-memory target,
bounded to `maxConnections` live connections.  With the shared cache all pool
members observe one logical dataset, so the pool's observable state is one
database value. -/
structure SqlitePool where
  maxConnections : Nat
  conn : Db
deriving DecidableEq, Repr

/-- `SqlitePoolOptions::new().max_connections(n).connect_with(memory, shared
cache)`: a fresh pool over a fresh in-memory database. -/
def poolConnectMemoryShared (maxConn : Nat) : SqlitePool :=
  ⟨maxConn, emptyDb⟩

/-- Batch execution routed through the pool. -/
def poolExecBatch (p : SqlitePool) (stmts : List SqlStmt) :
    Except EngineError SqlitePool :=
  (execBatch p.conn stmts).map (fun d => { p with conn := d })

/-- Full-table scan routed through the pool. -/
def poolSelectAll (p : SqlitePool) : Except EngineError (List Test) :=
  selectAll p.conn

/-- Dynamic statement execution (the vacuum text) routed through the pool. -/
def poolExecStatement (p : SqlitePool) (fs : Fs) (stmt : String) :
    Except EngineError Fs :=
  execStatement p.conn fs stmt

/-- Observables of one successful sqlx-strategy run: the rows read from the
live in-memory store, the catalog of the exported file, the rows read back
from the exported file, and the final filesystem. -/
structure RunResult where
  things : List Test
  tables : List Table
  stored_things : List Test
  fs : Fs
deriving DecidableEq, Repr

/-- Observables of one successful rusqlite run (that strategy performs no
catalog query). -/
structure RusqliteResult where
  things : List Test
  stored_things : List Test
  fs : Fs
deriving DecidableEq, Repr

/-- Pre-export phase of `sqlx_with_shared_cache_connection` (`main.rs` lines
33-58): provision the temp target, connect a shared-cache in-memory
connection, run the seeding batch, read and count-check the live rows, build
the vacuum statement and execute it, then drop the connection.  The live
handle is not part of the result: it is released here. -/
def preExportShared (fs0 : Fs) (path : String) :
    Except EngineError (List Test × Fs) := do
  let fs1 ← provision fs0 path
  let conn0 := emptyDb
  let conn1 ← execBatch conn0 CREATE_TABLE
  let things ← selectAll conn1
  liveRowCheck things
  let vacuum_statement := vacuum_into path
  let fs2 ← execStatement conn1 fs1 vacuum_statement
  .ok (things, fs2)

/-- Post-export phase of `sqlx_with_shared_cache_connection` (`main.rs` lines
60-86), running after the live handle has been dropped and taking no live
handle: assert the exported file exists, open a fresh pool on it, check the
catalog is non-empty, re-read all rows, and compare count and contents with
the pre-export rows. -/
def postExportShared (path : String) (things : List Test) (fs2 : Fs) :
    Except EngineError RunResult := do
  assertThat (fsExists fs2 path = true)
  let db2 ← connectFile fs2 path
  let tables := selectCatalog db2
  assertThat (1 ≤ tables.length)
  let stored_things ← selectAll db2
  assertThat (stored_things.length = 2)
  assertThat (stored_things = things)
  .ok ⟨things, tables, stored_things, fs2⟩

/-- The function `sqlx_with_shared_cache_connection` of `main.rs`: the
pre-export phase (which alone holds the live in-memory handle) followed by
the post-export phase. -/
def sqlx_with_shared_cache_connection (fs0 : Fs) (path : String) :
    Except EngineError RunResult := do
  let r ← preExportShared fs0 path
  postExportShared path r.1 r.2

/-- Pre-export phase of `sqlx_with_pooled_connection` (`main.rs` lines
91-116): as the shared-cache variant but every database operation is routed
through a pool capped at one connection; the pool is dropped at the end. -/
def preExportPooled (fs0 : Fs) (path : String) :
    Except EngineError (List Test × Fs) := do
  let fs1 ← provision fs0 path
  let pool0 := poolConnectMemoryShared 1
  let pool1 ← poolExecBatch pool0 CREATE_TABLE
  let things ← poolSelectAll pool1
  liveRowCheck things
  let vacuum_statement := vacuum_into path
  let fs2 ← poolExecStatement pool1 fs1 vacuum_statement
  .ok (things, fs2)

/-- Post-export phase of `sqlx_with_pooled_connection` (`main.rs` lines
118-146): identical to the shared-cache variant's post-export phase. -/
def postExportPooled (path : String) (things : List Test) (fs2 : Fs) :
    Except EngineError RunResult := do
  assertThat (fsExists fs2 path = true)
  let db2 ← connectFile fs2 path
  let tables := selectCatalog db2
  assertThat (1 ≤ tables.length)
  let stored_things ← selectAll db2
  assertThat (stored_things.length = 2)
  assertThat (stored_things = things)
  .ok ⟨things, tables, stored_things, fs2⟩

/-- The function `sqlx_with_pooled_connection` of `main.rs`. -/
def sqlx_with_pooled_connection (fs0 : Fs) (path : String) :
    Except EngineError RunResult := do
  let r ← preExportPooled fs0 path
  postExportPooled path r.1 r.2

/-- Pre-export phase of `rusqlite` (`main.rs` lines 151-179): provision,
open a private in-memory connection, `execute_batch` the seeding SQL, read
and count-check the rows, then export through the parameterized statement
`vacuum into $1` (the path is bound as a parameter, not spliced into the
text), then drop statement and connection. -/
def preExportRusqlite (fs0 : Fs) (path : String) :
    Except EngineError (List Test × Fs) := do
  let fs1 ← provision fs0 path
  let conn0 := emptyDb
  let conn1 ← execBatch conn0 CREATE_TABLE
  let things ← selectAll conn1
  liveRowCheck things
  let fs2 ← export_to conn1 fs1 path
  .ok (things, fs2)

/-- Post-export phase of `rusqlite` (`main.rs` lines 181-203): open the
exported file (rusqlite would create a missing file), re-read all rows, and
compare count and contents; no existence assertion and no catalog query in
this strategy. -/
def postExportRusqlite (path : String) (things : List Test) (fs2 : Fs) :
    Except EngineError RusqliteResult := do
  let db2 ← rusqliteOpen fs2 path
  let stored_things ← selectAll db2
  assertThat (stored_things.length = 2)
  assertThat (stored_things = things)
  .ok ⟨things, stored_things, fs2⟩

/-- The function `rusqlite` of `main.rs`.  Its errors are `unwrap` panics in
the source; both panics and `?`-propagated errors abort the run immediately
and surface the cause, so both are modelled as `Except` errors. -/
def rusqlite (fs0 : Fs) (path : String) :
    Except EngineError RusqliteResult := do
  let r ← preExportRusqlite fs0 path
  postExportRusqlite path r.1 r.2

/-- The Seed Dataset (spec section 3): two rows, `{id 1, "hello"}` then
`{id 2, "world"}`, in insertion order. -/
def seedRows : List Test := [⟨1, "hello"⟩, ⟨2, "world"⟩]

/-- The database state produced by the seeding batch on a fresh in-memory
database. -/
def seededDb : Db := ⟨["test"], seedRows⟩

/-- The filesystem after a successful run that started from `fs0` and
exported to `path`: the provisioned placeholder overwritten by the stored
snapshot of the seeded database. -/
def exportedFs (fs0 : Fs) (path : String) : Fs :=
  fsInsert (fsInsert fs0 path .empty) path (.stored seededDb)

/-- The filesystem state at the moment the export statement is issued, in
every strategy: it is the provisioner's output unchanged, because between
provisioning (line 33/91/151) and the vacuum call (line 55/113/175) the
program only touches the in-memory store, never the filesystem. -/
def fsAtExport (fs0 : Fs) (path : String) : Except EngineError Fs :=
  provision fs0 path

lemma execBatch_seed : execBatch emptyDb CREATE_TABLE = .ok seededDb := rfl

lemma selectAll_seededDb : selectAll seededDb = .ok seedRows := rfl

lemma selectCatalog_seededDb : selectCatalog seededDb = [⟨"test"⟩] := rfl

lemma stripHead_append (ps rest : List Char) :
    stripHead ps (ps ++ rest) = some rest := by
  induction ps with
  | nil => rfl
  | cons p ps ih => simp [stripHead, ih]

lemma scanSqlLit_append_quote (l : List Char)
    (h : quoteChar ∉ l) :
    scanSqlLit (l ++ [quoteChar]) = some l := by
  induction l with
  | nil => simp [scanSqlLit]
  | cons c cs ih =>
    have hc : ¬ (c = quoteChar) := by
      intro hEq
      exact h (by simp [hEq])
    have hcs : quoteChar ∉ cs := fun hm => h (List.mem_cons_of_mem _ hm)
    rw [List.cons_append, scanSqlLit.eq_def]
    simp [hc, ih hcs]

lemma parseVacuumInto_vacuum_into (s : String)
    (h : quoteChar ∉ s.data) :
    parseVacuumInto (vacuum_into s) = some s := by
  have hdata : (vacuum_into s).data = vacuumHead.data ++ (s.data ++ [quoteChar]) := by
    simp [vacuum_into, vacuumHead, String.data_append, List.append_assoc]
    rfl
  unfold parseVacuumInto
  rw [hdata, stripHead_append]
  show (scanSqlLit (s.data ++ [quoteChar])).map String.mk = some s
  rw [scanSqlLit_append_quote s.data h]
  cases s
  rfl

lemma lookup_fsInsert (fs : Fs) (path : String) (f : FsFile) :
    (fsInsert fs path f).lookup path = some f := by
  simp [fsInsert, List.lookup]

lemma fsExists_fsInsert (fs : Fs) (path : String) (f : FsFile) :
    fsExists (fsInsert fs path f) path = true := by
  simp [fsExists, lookup_fsInsert]

lemma provision_fresh (fs0 : Fs) (path : String)
    (h1 : fs0.lookup path = none) :
    provision fs0 path = .ok (fsInsert fs0 path .empty) := by
  simp [provision, fsExists, h1]

lemma preExportShared_spec (fs0 : Fs) (path : String)
    (h1 : fs0.lookup path = none)
    (h2 : quoteChar ∉ path.data) :
    preExportShared fs0 path = .ok (seedRows, exportedFs fs0 path) := by
  have hparse := parseVacuumInto_vacuum_into path h2
  simp [preExportShared, Bind.bind, Except.bind, provision_fresh fs0 path h1,
    execBatch_seed, selectAll_seededDb, liveRowCheck, assertThat, seedRows,
    execStatement, hparse, export_to, lookup_fsInsert, exportedFs, seededDb,
    selectAll]

lemma postExportShared_spec (fs0 : Fs) (path : String) :
    postExportShared path seedRows (exportedFs fs0 path) =
      .ok ⟨seedRows, [⟨"test"⟩], seedRows, exportedFs fs0 path⟩ := by
  simp [postExportShared, Bind.bind, Except.bind, assertThat, exportedFs,
    fsExists_fsInsert, connectFile, lookup_fsInsert, seedRows, seededDb,
    selectCatalog, selectAll]

lemma sqlx_shared_run (fs0 : Fs) (path : String)
    (h1 : fs0.lookup path = none)
    (h2 : quoteChar ∉ path.data) :
    sqlx_with_shared_cache_connection fs0 path =
      .ok ⟨seedRows, [⟨"test"⟩], seedRows, exportedFs fs0 path⟩ := by
  rw [sqlx_with_shared_cache_connection, preExportShared_spec fs0 path h1 h2]
  show postExportShared path seedRows (exportedFs fs0 path) = _
  exact postExportShared_spec fs0 path

lemma preExportPooled_spec (fs0 : Fs) (path : String)
    (h1 : fs0.lookup path = none)
    (h2 : quoteChar ∉ path.data) :
    preExportPooled fs0 path = .ok (seedRows, exportedFs fs0 path) := by
  have hparse := parseVacuumInto_vacuum_into path h2
  simp [preExportPooled, Bind.bind, Except.bind, provision_fresh fs0 path h1,
    poolConnectMemoryShared, poolExecBatch, execBatch_seed, poolSelectAll,
    liveRowCheck, assertThat, seedRows, poolExecStatement, execStatement,
    hparse, export_to, lookup_fsInsert, exportedFs, seededDb, selectAll,
    Except.map]

lemma postExportPooled_spec (fs0 : Fs) (path : String) :
    postExportPooled path seedRows (exportedFs fs0 path) =
      .ok ⟨seedRows, [⟨"test"⟩], seedRows, exportedFs fs0 path⟩ := by
  simp [postExportPooled, Bind.bind, Except.bind, assertThat, exportedFs,
    fsExists_fsInsert, connectFile, lookup_fsInsert, seedRows, seededDb,
    selectCatalog, selectAll]

lemma sqlx_pooled_run (fs0 : Fs) (path : String)
    (h1 : fs0.lookup path = none)
    (h2 : quoteChar ∉ path.data) :
    sqlx_with_pooled_connection fs0 path =
      .ok ⟨seedRows, [⟨"test"⟩], seedRows, exportedFs fs0 path⟩ := by
  rw [sqlx_with_pooled_connection, preExportPooled_spec fs0 path h1 h2]
  show postExportPooled path seedRows (exportedFs fs0 path) = _
  exact postExportPooled_spec fs0 path

lemma preExportRusqlite_spec (fs0 : Fs) (path : String)
    (h1 : fs0.lookup path = none) :
    preExportRusqlite fs0 path = .ok (seedRows, exportedFs fs0 path) := by
  simp [preExportRusqlite, Bind.bind, Except.bind, provision_fresh fs0 path h1,
    execBatch_seed, liveRowCheck, assertThat, seedRows, export_to,
    lookup_fsInsert, exportedFs, seededDb, selectAll]

lemma postExportRusqlite_spec (fs0 : Fs) (path : String) :
    postExportRusqlite path seedRows (exportedFs fs0 path) =
      .ok ⟨seedRows, seedRows, exportedFs fs0 path⟩ := by
  simp [postExportRusqlite, Bind.bind, Except.bind, assertThat, exportedFs,
    rusqliteOpen, lookup_fsInsert, seedRows, seededDb, selectAll]

lemma rusqlite_run (fs0 : Fs) (path : String)
    (h1 : fs0.lookup path = none) :
    rusqlite fs0 path = .ok ⟨seedRows, seedRows, exportedFs fs0 path⟩ := by
  rw [rusqlite, preExportRusqlite_spec fs0 path h1]
  show postExportRusqlite path seedRows (exportedFs fs0 path) = _
  exact postExportRusqlite_spec fs0 path

/-- Claim C1: for every run of every strategy, the sequence of rows read
back from the exported file after the export completes equals — in count,
in both fields of every row, and in order — the sequence read from the live
in-memory store before the export. -/
theorem C1_round_trip_fidelity (fs0 : Fs) (path : String)
    (h1 : fs0.lookup path = none) (h2 : quoteChar ∉ path.data) :
    (∃ r : RunResult, sqlx_with_shared_cache_connection fs0 path = .ok r ∧
      r.stored_things = r.things) ∧
    (∃ r : RunResult, sqlx_with_pooled_connection fs0 path = .ok r ∧
      r.stored_things = r.things) ∧
    (∃ r : RusqliteResult, rusqlite fs0 path = .ok r ∧
      r.stored_things = r.things) :=
  ⟨⟨_, sqlx_shared_run fs0 path h1 h2, rfl⟩,
   ⟨_, sqlx_pooled_run fs0 path h1 h2, rfl⟩,
   ⟨_, rusqlite_run fs0 path h1, rfl⟩⟩

/-- Witness for C1 at the empty filesystem and a concrete quote-free path. -/
theorem C1_round_trip_fidelity_witness :
    (([] : Fs).lookup "/tmp/out1.db" = none ∧ quoteChar ∉ "/tmp/out1.db".data) ∧
    ((∃ r : RunResult, sqlx_with_shared_cache_connection [] "/tmp/out1.db" = .ok r ∧
        r.stored_things = r.things) ∧
     (∃ r : RunResult, sqlx_with_pooled_connection [] "/tmp/out1.db" = .ok r ∧
        r.stored_things = r.things) ∧
     (∃ r : RusqliteResult, rusqlite [] "/tmp/out1.db" = .ok r ∧
        r.stored_things = r.things)) :=
  ⟨⟨rfl, by decide⟩, C1_round_trip_fidelity [] "/tmp/out1.db" rfl (by decide)⟩

/-- Claim C2, counterexample: the claim says the destination path does not
exist at the moment the export is issued, but the temp-file provisioner
(`NamedTempFile::new`) creates the file: in the run from the empty
filesystem exporting to `/tmp/out0.db`, the filesystem at export issuance
contains the destination path (as a zero-byte placeholder) — it exists —
and the export nevertheless completes successfully. -/
theorem C2_export_existence_counterexample :
    fsAtExport [] "/tmp/out0.db" = .ok [("/tmp/out0.db", FsFile.empty)] ∧
    fsExists [("/tmp/out0.db", FsFile.empty)] "/tmp/out0.db" = true ∧
    sqlx_with_shared_cache_connection [] "/tmp/out0.db" =
      .ok ⟨seedRows, [⟨"test"⟩], seedRows,
        [("/tmp/out0.db", FsFile.stored seededDb)]⟩ :=
  ⟨rfl, rfl, rfl⟩

/-- Claim C2 as amended: in every run the destination path already exists at
the moment the export is issued — as the zero-byte placeholder file created
by the temp-file provisioner, which the export operation tolerates and
overwrites — and immediately after the export operation returns
successfully the destination path exists and holds the stored database. -/
theorem C2_export_existence_amended (fs0 : Fs) (path : String)
    (h1 : fs0.lookup path = none) (h2 : quoteChar ∉ path.data) :
    (fsAtExport fs0 path = .ok (fsInsert fs0 path .empty) ∧
      (fsInsert fs0 path .empty).lookup path = some .empty) ∧
    (∃ r : RunResult, sqlx_with_shared_cache_connection fs0 path = .ok r ∧
      r.fs.lookup path = some (.stored seededDb) ∧ fsExists r.fs path = true) ∧
    (∃ r : RunResult, sqlx_with_pooled_connection fs0 path = .ok r ∧
      r.fs.lookup path = some (.stored seededDb) ∧ fsExists r.fs path = true) ∧
    (∃ r : RusqliteResult, rusqlite fs0 path = .ok r ∧
      r.fs.lookup path = some (.stored seededDb) ∧ fsExists r.fs path = true) := by
  refine ⟨⟨?_, lookup_fsInsert fs0 path .empty⟩,
    ⟨_, sqlx_shared_run fs0 path h1 h2, ?_, ?_⟩,
    ⟨_, sqlx_pooled_run fs0 path h1 h2, ?_, ?_⟩,
    ⟨_, rusqlite_run fs0 path h1, ?_, ?_⟩⟩ <;>
    simp [fsAtExport, provision_fresh fs0 path h1, exportedFs,
      lookup_fsInsert, fsExists_fsInsert]

/-- Witness for the amended C2 at a concrete input. -/
theorem C2_export_existence_amended_witness :
    (([] : Fs).lookup "/tmp/out2.db" = none ∧ quoteChar ∉ "/tmp/out2.db".data) ∧
    ((fsAtExport [] "/tmp/out2.db" = .ok (fsInsert [] "/tmp/out2.db" .empty) ∧
        (fsInsert ([] : Fs) "/tmp/out2.db" .empty).lookup "/tmp/out2.db" = some .empty) ∧
     (∃ r : RunResult, sqlx_with_shared_cache_connection [] "/tmp/out2.db" = .ok r ∧
        r.fs.lookup "/tmp/out2.db" = some (.stored seededDb) ∧
        fsExists r.fs "/tmp/out2.db" = true) ∧
     (∃ r : RunResult, sqlx_with_pooled_connection [] "/tmp/out2.db" = .ok r ∧
        r.fs.lookup "/tmp/out2.db" = some (.stored seededDb) ∧
        fsExists r.fs "/tmp/out2.db" = true) ∧
     (∃ r : RusqliteResult, rusqlite [] "/tmp/out2.db" = .ok r ∧
        r.fs.lookup "/tmp/out2.db" = some (.stored seededDb) ∧
        fsExists r.fs "/tmp/out2.db" = true)) :=
  ⟨⟨rfl, by decide⟩, C2_export_existence_amended [] "/tmp/out2.db" rfl (by decide)⟩

/-- Claim C3: for every run, after the seeding batch has executed, a full
unfiltered scan of the table on the live in-memory handle returns exactly
the two-element sequence `[{id 1, "hello"}, {id 2, "world"}]`, in order. -/
theorem C3_seed_integrity (fs0 : Fs) (path : String)
    (h1 : fs0.lookup path = none) (h2 : quoteChar ∉ path.data) :
    execBatch emptyDb CREATE_TABLE = .ok seededDb ∧
    selectAll seededDb = .ok [⟨1, "hello"⟩, ⟨2, "world"⟩] ∧
    (∃ r : RunResult, sqlx_with_shared_cache_connection fs0 path = .ok r ∧
      r.things = [⟨1, "hello"⟩, ⟨2, "world"⟩]) ∧
    (∃ r : RunResult, sqlx_with_pooled_connection fs0 path = .ok r ∧
      r.things = [⟨1, "hello"⟩, ⟨2, "world"⟩]) ∧
    (∃ r : RusqliteResult, rusqlite fs0 path = .ok r ∧
      r.things = [⟨1, "hello"⟩, ⟨2, "world"⟩]) :=
  ⟨rfl, rfl,
   ⟨_, sqlx_shared_run fs0 path h1 h2, rfl⟩,
   ⟨_, sqlx_pooled_run fs0 path h1 h2, rfl⟩,
   ⟨_, rusqlite_run fs0 path h1, rfl⟩⟩

/-- Witness for C3 at a concrete input. -/
theorem C3_seed_integrity_witness :
    (([] : Fs).lookup "/tmp/out3.db" = none ∧ quoteChar ∉ "/tmp/out3.db".data) ∧
    (execBatch emptyDb CREATE_TABLE = .ok seededDb ∧
     selectAll seededDb = .ok [⟨1, "hello"⟩, ⟨2, "world"⟩] ∧
     (∃ r : RunResult, sqlx_with_shared_cache_connection [] "/tmp/out3.db" = .ok r ∧
        r.things = [⟨1, "hello"⟩, ⟨2, "world"⟩]) ∧
     (∃ r : RunResult, sqlx_with_pooled_connection [] "/tmp/out3.db" = .ok r ∧
        r.things = [⟨1, "hello"⟩, ⟨2, "world"⟩]) ∧
     (∃ r : RusqliteResult, rusqlite [] "/tmp/out3.db" = .ok r ∧
        r.things = [⟨1, "hello"⟩, ⟨2, "world"⟩])) :=
  ⟨⟨rfl, by decide⟩, C3_seed_integrity [] "/tmp/out3.db" rfl (by decide)⟩

/-- Claim C4: in every strategy, after the export, querying the exported
database's table catalog yields at least one table name, and the names
include the seeded table's name "test".  The two sqlx strategies perform
this query themselves; for the rusqlite strategy the property is stated of
the exported file's database value. -/
theorem C4_catalog_check (fs0 : Fs) (path : String)
    (h1 : fs0.lookup path = none) (h2 : quoteChar ∉ path.data) :
    (∃ r : RunResult, sqlx_with_shared_cache_connection fs0 path = .ok r ∧
      1 ≤ r.tables.length ∧ ⟨"test"⟩ ∈ r.tables) ∧
    (∃ r : RunResult, sqlx_with_pooled_connection fs0 path = .ok r ∧
      1 ≤ r.tables.length ∧ ⟨"test"⟩ ∈ r.tables) ∧
    (∃ r : RusqliteResult, rusqlite fs0 path = .ok r ∧
      r.fs.lookup path = some (.stored seededDb) ∧
      1 ≤ (selectCatalog seededDb).length ∧ ⟨"test"⟩ ∈ selectCatalog seededDb) := by
  refine ⟨⟨_, sqlx_shared_run fs0 path h1 h2, by simp, by simp⟩,
    ⟨_, sqlx_pooled_run fs0 path h1 h2, by simp, by simp⟩,
    ⟨_, rusqlite_run fs0 path h1, ?_, by simp [selectCatalog, seededDb],
      by simp [selectCatalog, seededDb]⟩⟩
  simp [exportedFs, lookup_fsInsert]

/-- Witness for C4 at a concrete input. -/
theorem C4_catalog_check_witness :
    (([] : Fs).lookup "/tmp/out4.db" = none ∧ quoteChar ∉ "/tmp/out4.db".data) ∧
    ((∃ r : RunResult, sqlx_with_shared_cache_connection [] "/tmp/out4.db" = .ok r ∧
        1 ≤ r.tables.length ∧ ⟨"test"⟩ ∈ r.tables) ∧
     (∃ r : RunResult, sqlx_with_pooled_connection [] "/tmp/out4.db" = .ok r ∧
        1 ≤ r.tables.length ∧ ⟨"test"⟩ ∈ r.tables) ∧
     (∃ r : RusqliteResult, rusqlite [] "/tmp/out4.db" = .ok r ∧
        r.fs.lookup "/tmp/out4.db" = some (.stored seededDb) ∧
        1 ≤ (selectCatalog seededDb).length ∧ ⟨"test"⟩ ∈ selectCatalog seededDb)) :=
  ⟨⟨rfl, by decide⟩, C4_catalog_check [] "/tmp/out4.db" rfl (by decide)⟩

/-- Claim C5: for equivalent inputs, the pooled strategy (pool capped at one
connection) and the exclusive single-connection strategy produce identical
outcomes — the two run functions are equal on every input, so in particular
every seed-integrity, export-existence, round-trip and catalog observable
coincides. -/
theorem C5_pool_equivalence (fs0 : Fs) (path : String) :
    sqlx_with_pooled_connection fs0 path =
      sqlx_with_shared_cache_connection fs0 path :=
  rfl

/-- Claim C6: in every run, the live in-memory handle is fully released
after a successful export and before the post-export handle is opened, and
this never causes the post-export open or any subsequent query to fail:
each strategy's pre-export phase (the only part holding the live handle)
returns with the handle dropped — the handle is absent from its result —
and the post-export phase, which receives no live handle at all, then
succeeds on the exported filesystem.  All phases are total functions, so no
operation can hang. -/
theorem C6_release_non_interference (fs0 : Fs) (path : String)
    (h1 : fs0.lookup path = none) (h2 : quoteChar ∉ path.data) :
    (preExportShared fs0 path = .ok (seedRows, exportedFs fs0 path) ∧
      postExportShared path seedRows (exportedFs fs0 path) =
        .ok ⟨seedRows, [⟨"test"⟩], seedRows, exportedFs fs0 path⟩) ∧
    (preExportPooled fs0 path = .ok (seedRows, exportedFs fs0 path) ∧
      postExportPooled path seedRows (exportedFs fs0 path) =
        .ok ⟨seedRows, [⟨"test"⟩], seedRows, exportedFs fs0 path⟩) ∧
    (preExportRusqlite fs0 path = .ok (seedRows, exportedFs fs0 path) ∧
      postExportRusqlite path seedRows (exportedFs fs0 path) =
        .ok ⟨seedRows, seedRows, exportedFs fs0 path⟩) :=
  ⟨⟨preExportShared_spec fs0 path h1 h2, postExportShared_spec fs0 path⟩,
   ⟨preExportPooled_spec fs0 path h1 h2, postExportPooled_spec fs0 path⟩,
   ⟨preExportRusqlite_spec fs0 path h1, postExportRusqlite_spec fs0 path⟩⟩

/-- Witness for C6 at a concrete input. -/
theorem C6_release_non_interference_witness :
    (([] : Fs).lookup "/tmp/out6.db" = none ∧ quoteChar ∉ "/tmp/out6.db".data) ∧
    ((preExportShared [] "/tmp/out6.db" = .ok (seedRows, exportedFs [] "/tmp/out6.db") ∧
       postExportShared "/tmp/out6.db" seedRows (exportedFs [] "/tmp/out6.db") =
         .ok ⟨seedRows, [⟨"test"⟩], seedRows, exportedFs [] "/tmp/out6.db"⟩) ∧
     (preExportPooled [] "/tmp/out6.db" = .ok (seedRows, exportedFs [] "/tmp/out6.db") ∧
       postExportPooled "/tmp/out6.db" seedRows (exportedFs [] "/tmp/out6.db") =
         .ok ⟨seedRows, [⟨"test"⟩], seedRows, exportedFs [] "/tmp/out6.db"⟩) ∧
     (preExportRusqlite [] "/tmp/out6.db" = .ok (seedRows, exportedFs [] "/tmp/out6.db") ∧
       postExportRusqlite "/tmp/out6.db" seedRows (exportedFs [] "/tmp/out6.db") =
         .ok ⟨seedRows, seedRows, exportedFs [] "/tmp/out6.db"⟩)) :=
  ⟨⟨rfl, by decide⟩, C6_release_non_interference [] "/tmp/out6.db" rfl (by decide)⟩

/-- Claim C7: in every strategy the schema-creation statement and the two
literal inserts form one single batch — the one constant `CREATE_TABLE`,
executed by a single `execute`/`execute_batch` call — and executing that
batch on a fresh in-memory database completes synchronously with both
inserted rows visible, in order, to a subsequent read on the same handle. -/
theorem C7_seeding_batch :
    CREATE_TABLE = [SqlStmt.createTable "test",
      SqlStmt.insertName "test" "hello", SqlStmt.insertName "test" "world"] ∧
    execBatch emptyDb CREATE_TABLE = .ok seededDb ∧
    selectAll seededDb = .ok [⟨1, "hello"⟩, ⟨2, "world"⟩] :=
  ⟨rfl, rfl, rfl⟩

/-- Claim C8: any provisioning, connection, execution, or export error
aborts the entire workflow at the step where it occurred — the run's result
is exactly that step's error, so no later step contributes anything and the
cause is propagated, never swallowed.  A provisioning error becomes the
result of all three strategies; an execution error at the vacuum step (a
quote in the path makes the spliced statement text malformed) becomes the
run's result in the sqlx strategy; an export to a path occupied by a
non-empty file fails with a collision error. -/
theorem C8_fatal_error_propagation (fs0 : Fs) (path : String)
    (e : EngineError) (hprov : provision fs0 path = .error e) :
    sqlx_with_shared_cache_connection fs0 path = .error e ∧
    sqlx_with_pooled_connection fs0 path = .error e ∧
    rusqlite fs0 path = .error e ∧
    sqlx_with_shared_cache_connection [] "/tmp/a'b" = .error .malformedSql ∧
    export_to seededDb [("q", FsFile.stored emptyDb)] "q" =
      .error .exportCollision := by
  refine ⟨?_, ?_, ?_, rfl, rfl⟩ <;>
    simp [sqlx_with_shared_cache_connection, sqlx_with_pooled_connection,
      rusqlite, preExportShared, preExportPooled, preExportRusqlite,
      Bind.bind, Except.bind, hprov]

/-- Witness for C8: a provisioning failure (the chosen temp path already
exists) aborts all three strategies with that error. -/
theorem C8_fatal_error_propagation_witness :
    provision [("/tmp/out8.db", FsFile.empty)] "/tmp/out8.db" =
      .error .tempFileError ∧
    (sqlx_with_shared_cache_connection [("/tmp/out8.db", FsFile.empty)] "/tmp/out8.db" =
      .error .tempFileError ∧
     sqlx_with_pooled_connection [("/tmp/out8.db", FsFile.empty)] "/tmp/out8.db" =
      .error .tempFileError ∧
     rusqlite [("/tmp/out8.db", FsFile.empty)] "/tmp/out8.db" =
      .error .tempFileError ∧
     sqlx_with_shared_cache_connection [] "/tmp/a'b" = .error .malformedSql ∧
     export_to seededDb [("q", FsFile.stored emptyDb)] "q" =
      .error .exportCollision) :=
  ⟨rfl, C8_fatal_error_propagation [("/tmp/out8.db", FsFile.empty)]
    "/tmp/out8.db" EngineError.tempFileError rfl⟩

/-- Claim C9: `vacuum_into` returns exactly `"vacuum into '" ++ s ++ "'"`,
embedding its argument verbatim between single quotes with no escaping; for
the quote-containing input `/tmp/a'b` the resulting text is not one
well-formed vacuum statement (the engine's parse rejects it), while a
quote-free path parses back to the intended destination. -/
theorem C9_vacuum_into_verbatim :
    (∀ s : String, vacuum_into s = "vacuum into '" ++ s ++ "'") ∧
    parseVacuumInto (vacuum_into "/tmp/a'b") = none ∧
    parseVacuumInto (vacuum_into "/tmp/out9.db") = some "/tmp/out9.db" :=
  ⟨fun _ => rfl, rfl, rfl⟩

/-- Claim C10: the pre-export (live) verification in every strategy checks
only that the row count equals 2 — it passes exactly on two-row lists,
regardless of id values, names, or order, as the bogus two-row list shows. -/
theorem C10_live_check_counts_only :
    (∀ rows : List Test, liveRowCheck rows = .ok () ↔ rows.length = 2) ∧
    liveRowCheck [⟨9, "bogus"⟩, ⟨8, "rows"⟩] = .ok () := by
  refine ⟨fun rows => ?_, rfl⟩
  by_cases h : rows.length = 2 <;> simp [liveRowCheck, assertThat, h]

end VacuumRepro
